import Mathlib

/-
  Verification development for ai_vision_core.py, a single-shot
  voice-triggered desktop assistant: record audio, transcribe with a local
  whisper.cpp executable, screenshot plus OCR, query a remote chat API,
  and surface the answer as a native notification.

  The embedding models the file system as an association list from paths
  to contents, and the five external collaborators (microphone, whisper
  executable, screencapture tool, OCR engine, chat API) as an Oracle
  record of their outcomes for the run.  The orchestrator main is a pure
  function from the oracle and the generated temporary file names to a
  RunResult: the emitted notifications, the process exit code, the final
  file system, and which pipeline stages were invoked.
-/

namespace AIVision

/-- The double-quote character, written numerically. -/
def dq : Char := Char.ofNat 34

/-- The single-quote character, written numerically. -/
def sq : Char := Char.ofNat 39

/-- One-character string holding a double quote. -/
def dqS : String := String.singleton dq

/-- One-character string holding a single quote. -/
def sqS : String := String.singleton sq

/-- Python whitespace as recognised by str.strip: space, tab, newline,
carriage return, vertical tab and form feed. -/
def pyWhitespace (c : Char) : Bool :=
  c == ' ' || c == '\t' || c == '\n' || c == '\r'
    || c == Char.ofNat 11 || c == Char.ofNat 12

/-- Models Python str.strip(): drop leading and trailing whitespace. -/
def pyStrip (s : String) : String :=
  String.mk (((s.data.dropWhile pyWhitespace).reverse.dropWhile pyWhitespace).reverse)

/-- File system: an association list from absolute paths to file contents. -/
abbrev FS := List (String × String)

/-- Look up the content of a path, if the file exists. -/
def FS.read (fs : FS) (p : String) : Option String :=
  match fs with
  | [] => none
  | e :: fs => if e.1 = p then some e.2 else FS.read fs p

/-- Delete a path (os.remove; no-op when absent). -/
def FS.remove (fs : FS) (p : String) : FS :=
  match fs with
  | [] => []
  | e :: fs => if e.1 = p then FS.remove fs p else e :: FS.remove fs p

/-- Create or overwrite a file at a path. -/
def FS.write (fs : FS) (p v : String) : FS :=
  (p, v) :: FS.remove fs p

/-- A native notification as produced by the osascript call: the
title, subtitle and body strings of display notification. -/
structure Notification where
  title : String
  subtitle : String
  body : String
deriving DecidableEq, Repr

/-- show_notification(title, text): osascript display notification with
the fixed title AI-Vision, subtitle equal to the title argument and body
equal to the text argument. -/
def show_notification (title text : String) : Notification :=
  { title := "AI-Vision", subtitle := title, body := text }

/-- The message of the ValueError raised when OPENAI_API_KEY is unset. -/
def configErrorMsg : String := "OPENAI_API_KEY environment variable not set."

/-- The notification emitted by the module-level credential check on
failure: body is the ValueError message, title AI-Vision Error, subtitle
Configuration Issue. -/
def configNotification : Notification :=
  { title := "AI-Vision Error", subtitle := "Configuration Issue", body := configErrorMsg }

/-- Models ai_answer.replace with the one-character pattern double quote
and one-character replacement single quote (main, final notification):
for a single-character pattern Python str.replace is a character-wise map. -/
def sanitize (s : String) : String :=
  String.mk (s.data.map (fun c => if c = dq then sq else c))

/-- Leading fixed part of the user prompt f-string in get_ai_assistance. -/
def promptPre : String := "\n    CONTEXT FROM SCREEN:\n    ---\n    "

/-- Middle fixed part of the user prompt f-string, between the screen
context block and the user question. -/
def promptMid : String := "\n    ---\n    USER" ++ sqS ++ "S QUESTION: " ++ dqS

/-- Trailing fixed part of the user prompt f-string. -/
def promptPost : String := dqS ++ "\n    "

/-- The sentinel substituted for blank screen text in the prompt. -/
def sentinel : String := "No text was detected on the screen."

/-- The user prompt of get_ai_assistance: the f-string with the screen
text substituted when its strip is nonempty, else the sentinel, and the
question quoted after it. -/
def buildPrompt (screen_text user_question : String) : String :=
  promptPre
    ++ (if pyStrip screen_text = "" then sentinel else screen_text)
    ++ promptMid ++ user_question ++ promptPost

/-- Fixed prefix of the answer string built in the except branch of
get_ai_assistance. -/
def errHead : String := "An error occurred while contacting the AI: "

/-- get_ai_assistance: send the prompt to the chat API; on success return
the response stripped, on any exception return the error message string.
The api argument models the openai.chat.completions.create call as a
function from the user prompt to either a response text or an exception
description. -/
def get_ai_assistance (api : String → Except String String)
    (screen_text user_question : String) : String :=
  match api (buildPrompt screen_text user_question) with
  | .ok r => pyStrip r
  | .error e => errHead ++ e

/-- transcribe_audio_local: run the whisper executable on the audio file
(whisper models the external process: an exception for a non-zero exit,
or the content it writes to the companion text file), read the companion
file back, strip it, delete the companion file and return the text.  An
error value models an uncaught Python exception (CalledProcessError from
check=True, or FileNotFoundError when the companion file is absent). -/
def transcribe_audio_local (whisper : Except Unit String) (fs : FS)
    (file_path : String) : Except Unit (String × FS) :=
  match whisper with
  | .error _ => .error ()
  | .ok content =>
    let fs1 := FS.write fs (file_path ++ ".txt") content
    match FS.read fs1 (file_path ++ ".txt") with
    | none => .error ()
    | some t => .ok (pyStrip t, FS.remove fs1 (file_path ++ ".txt"))

/-- Effect of tempfile.NamedTemporaryFile(suffix png, delete False)
followed by the screencapture invocation on the file system: the file is
created empty, then the tool either overwrites it with image bytes or
leaves it as created.  The exit status of screencapture is not part of
the effect because subprocess.run is called without check=True. -/
def scEffect (scWrites : Option String) (fs : FS) (p : String) : FS :=
  match scWrites with
  | some img => FS.write (FS.write fs p "") p img
  | none => FS.write fs p ""

/-- capture_screen_and_ocr: allocate the screenshot temp file, run
screencapture, open the image and run OCR.  ocrOfFile models Image.open
followed by pytesseract.image_to_string on the file content: an error
value is an uncaught exception from either call.  The extracted text is
returned unmodified, and the screenshot file is not deleted on any path
(the tempfile was created with delete False and no remove is issued). -/
def capture_screen_and_ocr (scWrites : Option String)
    (ocrOfFile : String → Except Unit String) (fs : FS) (shotPath : String) :
    Except Unit (String × FS) :=
  match FS.read (scEffect scWrites fs shotPath) shotPath with
  | none => .error ()
  | some content =>
    match ocrOfFile content with
    | .error _ => .error ()
    | .ok text => .ok (text, scEffect scWrites fs shotPath)

/-- Outcomes of the five external collaborators during one run. -/
structure Oracle where
  /-- Whether sounddevice recording succeeds (false models a raised
  device error from sd.rec or sd.wait). -/
  recOk : Bool
  /-- The whisper executable: an exception for non-zero exit, or the
  content it writes to the companion text file. -/
  whisper : Except Unit String
  /-- Exit status of the screencapture process. -/
  scExit : Nat
  /-- What screencapture writes to the screenshot file (none: nothing). -/
  scWrites : Option String
  /-- Image.open plus pytesseract on the screenshot file content. -/
  ocrOfFile : String → Except Unit String
  /-- The chat completions call, from user prompt to response or error. -/
  api : String → Except String String

/-- Observable outcome of a run: notifications emitted in order, process
exit code, final file system, and which stages were invoked. -/
structure RunResult where
  notifs : List Notification
  exitCode : Nat
  fs : FS
  recordCalled : Bool
  transcribeCalled : Bool
  captureCalled : Bool
  queryCalled : Bool
deriving DecidableEq, Repr

/-- Notification emitted by record_audio before recording. -/
def nListen : Notification :=
  show_notification "Listening..." "Please ask your question now."

/-- Notification emitted by transcribe_audio_local before transcribing. -/
def nThink : Notification :=
  show_notification "Thinking..." "Transcribing your question..."

/-- Notification emitted on the empty-transcription early return. -/
def nNoSpeech : Notification :=
  show_notification "Error" "Could not understand audio. Please try again."

/-- Notification emitted by get_ai_assistance before the API call. -/
def nConsult : Notification :=
  show_notification "Consulting AI..." "Getting an answer based on your screen."

/-- The final-answer notification: body is the answer with double quotes
replaced by single quotes. -/
def nAnswer (ans : String) : Notification :=
  show_notification ("Here" ++ sqS ++ "s your answer!") (sanitize ans)

/-- main: create the audio temp file, then inside try: record, transcribe
(early return on empty question), capture plus OCR, query, notify the
answer; the finally block removes the audio file if it exists.  An
exception escaping the try is re-raised after the finally and terminates
the interpreter with exit status 1; normal completion exits 0. -/
def runMain (o : Oracle) (fs0 : FS) (audioPath shotPath : String) : RunResult :=
  let fs1 := FS.write fs0 audioPath ""
  if o.recOk then
    let fs2 := FS.write fs1 audioPath "AUDIO"
    match transcribe_audio_local o.whisper fs2 audioPath with
    | .error _ =>
      { notifs := [nListen, nThink], exitCode := 1,
        fs := FS.remove fs2 audioPath,
        recordCalled := true, transcribeCalled := true,
        captureCalled := false, queryCalled := false }
    | .ok (user_question, fs3) =>
      if user_question = "" then
        { notifs := [nListen, nThink, nNoSpeech], exitCode := 0,
          fs := FS.remove fs3 audioPath,
          recordCalled := true, transcribeCalled := true,
          captureCalled := false, queryCalled := false }
      else
        match capture_screen_and_ocr o.scWrites o.ocrOfFile fs3 shotPath with
        | .error _ =>
          { notifs := [nListen, nThink], exitCode := 1,
            fs := FS.remove (scEffect o.scWrites fs3 shotPath) audioPath,
            recordCalled := true, transcribeCalled := true,
            captureCalled := true, queryCalled := false }
        | .ok (screen_text, fs4) =>
          let ai_answer := get_ai_assistance o.api screen_text user_question
          { notifs := [nListen, nThink, nConsult, nAnswer ai_answer],
            exitCode := 0, fs := FS.remove fs4 audioPath,
            recordCalled := true, transcribeCalled := true,
            captureCalled := true, queryCalled := true }
  else
    { notifs := [nListen], exitCode := 1, fs := FS.remove fs1 audioPath,
      recordCalled := true, transcribeCalled := false,
      captureCalled := false, queryCalled := false }

/-- The module-level credential check: os.getenv yields none when the
variable is absent; the check also rejects an empty value because Python
treats the empty string as falsy. -/
def startupKey (env : Option String) : Option String :=
  match env with
  | none => none
  | some k => if k = "" then none else some k

/-- The whole script run: the module-level credential check, then main.
On a missing or empty credential only the configuration notification is
emitted and the process exits 1 with no stage invoked and the file system
untouched. -/
def runProgram (env : Option String) (o : Oracle) (fs0 : FS)
    (audioPath shotPath : String) : RunResult :=
  match startupKey env with
  | none =>
    { notifs := [configNotification], exitCode := 1, fs := fs0,
      recordCalled := false, transcribeCalled := false,
      captureCalled := false, queryCalled := false }
  | some _ => runMain o fs0 audioPath shotPath

/-- Whether the character list starts with the needle. -/
def startsWithL : List Char → List Char → Bool
  | [], _ => true
  | _ :: _, [] => false
  | a :: as, b :: bs => a == b && startsWithL as bs

/-- Whether the needle occurs contiguously inside the haystack. -/
def occursInL (needle : List Char) : List Char → Bool
  | [] => startsWithL needle []
  | b :: bs => startsWithL needle (b :: bs) || occursInL needle bs

/-- Substring containment on strings. -/
def containsStr (hay needle : String) : Bool :=
  occursInL needle.data hay.data

/-- The file-system state after record_audio and the whisper run of a
successful transcription on companion content c: audio file written,
companion written then removed. -/
def fsT (fs0 : FS) (a c : String) : FS :=
  FS.remove (FS.write (FS.write (FS.write fs0 a "") a "AUDIO") (a ++ ".txt") c)
    (a ++ ".txt")

/-- A one-character string holding a horizontal tab. -/
def tabS : String := String.singleton (Char.ofNat 9)

/-- A run in which every collaborator succeeds. -/
def c1O : Oracle :=
  { recOk := true, whisper := .ok "hi", scExit := 0, scWrites := some "IMG",
    ocrOfFile := fun _ => .ok "ctx", api := fun _ => .ok "ans" }

/-- A run in which the whisper executable exits non-zero. -/
def c2O : Oracle :=
  { recOk := true, whisper := .error (), scExit := 0, scWrites := none,
    ocrOfFile := fun _ => .error (), api := fun _ => .ok "ans" }

/-- A run in which screencapture exits non-zero yet writes a usable
image, and every other collaborator succeeds. -/
def c3O : Oracle :=
  { recOk := true, whisper := .ok "hi", scExit := 7, scWrites := some "IMG",
    ocrOfFile := fun _ => .ok "ctx", api := fun _ => .ok "ans" }

/-- A run in which the screenshot file cannot be opened or OCRed. -/
def c3WitO : Oracle :=
  { recOk := true, whisper := .ok "hi", scExit := 1, scWrites := none,
    ocrOfFile := fun _ => .error (), api := fun _ => .ok "ans" }

/-- A run in which the OCR call raises. -/
def c4O : Oracle :=
  { recOk := true, whisper := .ok "hi", scExit := 0, scWrites := some "IMG",
    ocrOfFile := fun _ => .error (), api := fun _ => .ok "ans" }

/-- A run in which OCR succeeds with no text at all. -/
def c4WitO : Oracle :=
  { recOk := true, whisper := .ok "hi", scExit := 0, scWrites := some "IMG",
    ocrOfFile := fun _ => .ok "", api := fun _ => .ok "ans" }

/-- A run in which whisper writes a whitespace-only transcription. -/
def c5O : Oracle :=
  { recOk := true, whisper := .ok "   ", scExit := 0, scWrites := some "IMG",
    ocrOfFile := fun _ => .ok "ctx", api := fun _ => .ok "ans" }

/-- A run in which the chat API call raises. -/
def c6O : Oracle :=
  { recOk := true, whisper := .ok "q", scExit := 0, scWrites := some "IMG",
    ocrOfFile := fun _ => .ok "ctx", api := fun _ => .error "boom" }

/-- A fully successful run used for the notification-body claims. -/
def c10O : Oracle :=
  { recOk := true, whisper := .ok "hello", scExit := 0, scWrites := some "IMG",
    ocrOfFile := fun _ => .ok "screen words", api := fun _ => .ok "the answer" }

/-- Whether a notification is one of the two pre-stage progress messages
emitted before a fatal stage failure can occur. -/
def isProgressNotif (n : Notification) : Bool := n == nListen || n == nThink

theorem FS.read_remove_ne (fs : FS) (p q : String) (h : q ≠ p) :
    FS.read (FS.remove fs p) q = FS.read fs q := by
  have hpq : p ≠ q := fun hh => h hh.symm
  induction fs with
  | nil => rfl
  | cons e fs ih =>
    by_cases hp : e.1 = p
    · simp [FS.remove, FS.read, hp, hpq, ih]
    · by_cases hq : e.1 = q
      · simp [FS.remove, FS.read, hp, hq, h]
      · simp [FS.remove, FS.read, hp, hq, ih]

theorem FS.read_remove_self (fs : FS) (p : String) :
    FS.read (FS.remove fs p) p = none := by
  induction fs with
  | nil => rfl
  | cons e fs ih =>
    by_cases hp : e.1 = p
    · simp [FS.remove, hp, ih]
    · simp [FS.remove, FS.read, hp, ih]

theorem FS.read_write_self (fs : FS) (p v : String) :
    FS.read (FS.write fs p v) p = some v := by
  simp [FS.write, FS.read]

theorem FS.read_write_ne (fs : FS) (p q v : String) (h : q ≠ p) :
    FS.read (FS.write fs p v) q = FS.read fs q := by
  have hpq : p ≠ q := fun hh => h hh.symm
  simp [FS.write, FS.read, hpq]
  exact FS.read_remove_ne fs p q h

theorem String.ne_append_txt (p : String) : p ≠ p ++ ".txt" := by
  intro h
  have hlen := congrArg String.length h
  rw [String.length_append] at hlen
  have h4 : (".txt" : String).length = 4 := rfl
  omega

theorem sanitize_data (s : String) :
    (sanitize s).data = s.data.map (fun c => if c = dq then sq else c) := rfl

theorem sanitize_no_quote_aux (l : List Char) :
    (l.map (fun c => if c = dq then sq else c)).contains dq = false := by
  induction l with
  | nil => rfl
  | cons c l ih =>
    simp only [List.map_cons, List.contains_cons, Bool.or_eq_false_iff]
    refine ⟨?_, ih⟩
    by_cases hc : c = dq
    · simp only [hc, if_pos rfl]
      decide
    · rw [if_neg hc]
      exact beq_eq_false_iff_ne.mpr (fun hqq => hc hqq.symm)

theorem sanitize_no_quote (s : String) : (sanitize s).data.contains dq = false := by
  rw [sanitize_data]; exact sanitize_no_quote_aux s.data

theorem startsWithL_append (n b : List Char) : startsWithL n (n ++ b) = true := by
  induction n with
  | nil => rfl
  | cons c n ih => simp [startsWithL, ih]

theorem occursInL_of_starts (n l : List Char) (h : startsWithL n l = true) :
    occursInL n l = true := by
  cases l with
  | nil => simpa [occursInL] using h
  | cons b bs => simp [occursInL, h]

theorem occursInL_append_right (x n y : List Char) (h : occursInL n y = true) :
    occursInL n (x ++ y) = true := by
  induction x with
  | nil => simpa using h
  | cons a x ih => simp [occursInL, ih]

theorem containsStr_of_append (a n b : String) :
    containsStr (a ++ n ++ b) n = true := by
  have hd : (a ++ n ++ b).data = a.data ++ (n.data ++ b.data) := by
    simp [String.data_append]
  unfold containsStr
  rw [hd]
  exact occursInL_append_right _ _ _
    (occursInL_of_starts _ _ (startsWithL_append n.data b.data))

theorem scEffect_read (w : Option String) (fs : FS) (p : String) :
    FS.read (scEffect w fs p) p = some (w.getD "") := by
  cases w <;> simp [scEffect, FS.read_write_self]

theorem scEffect_read_ne (w : Option String) (fs : FS) (p q : String) (h : q ≠ p) :
    FS.read (scEffect w fs p) q = FS.read fs q := by
  cases w <;> simp [scEffect, FS.read_write_ne _ _ _ _ h]

theorem transcribe_ok_eq (fs : FS) (a c : String) :
    transcribe_audio_local (.ok c) fs a
      = .ok (pyStrip c, FS.remove (FS.write fs (a ++ ".txt") c) (a ++ ".txt")) := by
  simp [transcribe_audio_local, FS.read_write_self]

theorem capture_eq (w : Option String) (ocr : String → Except Unit String)
    (fs : FS) (s : String) :
    capture_screen_and_ocr w ocr fs s
      = match ocr (w.getD "") with
        | .error _ => .error ()
        | .ok t => .ok (t, scEffect w fs s) := by
  unfold capture_screen_and_ocr
  rw [scEffect_read]

theorem runMain_recFail (o : Oracle) (fs0 : FS) (a s : String)
    (h : o.recOk = false) :
    runMain o fs0 a s
      = { notifs := [nListen], exitCode := 1,
          fs := FS.remove (FS.write fs0 a "") a,
          recordCalled := true, transcribeCalled := false,
          captureCalled := false, queryCalled := false } := by
  simp [runMain, h]

theorem runMain_whisperFail (o : Oracle) (fs0 : FS) (a s : String) (u : Unit)
    (hr : o.recOk = true) (hw : o.whisper = .error u) :
    runMain o fs0 a s
      = { notifs := [nListen, nThink], exitCode := 1,
          fs := FS.remove (FS.write (FS.write fs0 a "") a "AUDIO") a,
          recordCalled := true, transcribeCalled := true,
          captureCalled := false, queryCalled := false } := by
  simp [runMain, hr, transcribe_audio_local, hw]

theorem runMain_noSpeech (o : Oracle) (fs0 : FS) (a s c : String)
    (hr : o.recOk = true) (hw : o.whisper = .ok c) (hc : pyStrip c = "") :
    runMain o fs0 a s
      = { notifs := [nListen, nThink, nNoSpeech], exitCode := 0,
          fs := FS.remove (fsT fs0 a c) a,
          recordCalled := true, transcribeCalled := true,
          captureCalled := false, queryCalled := false } := by
  simp [runMain, hr, hw, transcribe_ok_eq, hc, fsT]

theorem runMain_ocrFail (o : Oracle) (fs0 : FS) (a s c : String) (u : Unit)
    (hr : o.recOk = true) (hw : o.whisper = .ok c) (hc : pyStrip c ≠ "")
    (ho : o.ocrOfFile (o.scWrites.getD "") = .error u) :
    runMain o fs0 a s
      = { notifs := [nListen, nThink], exitCode := 1,
          fs := FS.remove (scEffect o.scWrites (fsT fs0 a c) s) a,
          recordCalled := true, transcribeCalled := true,
          captureCalled := true, queryCalled := false } := by
  simp [runMain, hr, hw, transcribe_ok_eq, hc, capture_eq, ho, fsT]

theorem runMain_success (o : Oracle) (fs0 : FS) (a s c st : String)
    (hr : o.recOk = true) (hw : o.whisper = .ok c) (hc : pyStrip c ≠ "")
    (ho : o.ocrOfFile (o.scWrites.getD "") = .ok st) :
    runMain o fs0 a s
      = { notifs := [nListen, nThink, nConsult,
                     nAnswer (get_ai_assistance o.api st (pyStrip c))],
          exitCode := 0,
          fs := FS.remove (scEffect o.scWrites (fsT fs0 a c) s) a,
          recordCalled := true, transcribeCalled := true,
          captureCalled := true, queryCalled := true } := by
  simp [runMain, hr, hw, transcribe_ok_eq, hc, capture_eq, ho, fsT]

theorem runProgram_started (k : String) (o : Oracle) (fs0 : FS) (a s : String)
    (hk : k ≠ "") : runProgram (some k) o fs0 a s = runMain o fs0 a s := by
  simp [runProgram, startupKey, hk]

theorem strContains_shape (hay a n b : String)
    (h : hay.data = a.data ++ (n.data ++ b.data)) : containsStr hay n = true := by
  unfold containsStr
  rw [h]
  exact occursInL_append_right _ _ _
    (occursInL_of_starts _ _ (startsWithL_append n.data b.data))

/-- C8: with the API credential absent from the environment, the run
consists of exactly one configuration-error notification, exit status 1,
an untouched file system, and no pipeline stage invoked. -/
theorem c8_config (o : Oracle) (fs0 : FS) (a s : String) :
    runProgram none o fs0 a s
      = { notifs := [configNotification], exitCode := 1, fs := fs0,
          recordCalled := false, transcribeCalled := false,
          captureCalled := false, queryCalled := false } := rfl

/-- C9: on a successful whisper run that wrote companion content c,
transcribe_audio_local returns the stripped content, the companion text
file is absent afterwards, and the audio file still holds its recorded
content. -/
theorem c9_transcribe (fs : FS) (a c audio : String)
    (hfs : FS.read fs a = some audio) :
    ∃ fs', transcribe_audio_local (.ok c) fs a = .ok (pyStrip c, fs')
      ∧ FS.read fs' (a ++ ".txt") = none
      ∧ FS.read fs' a = some audio := by
  refine ⟨_, transcribe_ok_eq fs a c, FS.read_remove_self _ _, ?_⟩
  rw [FS.read_remove_ne _ _ _ (String.ne_append_txt a),
      FS.read_write_ne _ _ _ _ (String.ne_append_txt a)]
  exact hfs

/-- Witness for C9 at a concrete file system and companion content. -/
theorem c9_transcribe_wit :
    ∃ fs', transcribe_audio_local (.ok " hi ") [("a.wav", "AUDIO")] "a.wav"
        = .ok (pyStrip " hi ", fs')
      ∧ FS.read fs' ("a.wav" ++ ".txt") = none
      ∧ FS.read fs' "a.wav" = some "AUDIO" :=
  c9_transcribe [("a.wav", "AUDIO")] "a.wav" " hi " "AUDIO" (by decide)

/-- C5: a transcription whose strip is empty halts the pipeline before
screen capture and AI query, exits 0, and emits exactly the listening,
thinking and could-not-understand notifications. -/
theorem c5_noSpeech (k : String) (o : Oracle) (c : String) (fs0 : FS)
    (a s : String) (hk : k ≠ "") (hr : o.recOk = true)
    (hw : o.whisper = .ok c) (hc : pyStrip c = "") :
    (runProgram (some k) o fs0 a s).captureCalled = false
    ∧ (runProgram (some k) o fs0 a s).queryCalled = false
    ∧ (runProgram (some k) o fs0 a s).exitCode = 0
    ∧ (runProgram (some k) o fs0 a s).notifs = [nListen, nThink, nNoSpeech] := by
  rw [runProgram_started k o fs0 a s hk, runMain_noSpeech o fs0 a s c hr hw hc]
  exact ⟨rfl, rfl, rfl, rfl⟩

/-- Witness for C5 with a whitespace-only whisper transcription. -/
theorem c5_noSpeech_wit :
    (runProgram (some "k") c5O [] "a.wav" "s.png").captureCalled = false
    ∧ (runProgram (some "k") c5O [] "a.wav" "s.png").queryCalled = false
    ∧ (runProgram (some "k") c5O [] "a.wav" "s.png").exitCode = 0
    ∧ (runProgram (some "k") c5O [] "a.wav" "s.png").notifs
        = [nListen, nThink, nNoSpeech] :=
  c5_noSpeech "k" c5O "   " [] "a.wav" "s.png" (by decide) rfl rfl (by decide)

theorem errHead_append_ne_empty (e : String) : errHead ++ e ≠ "" := by
  intro h
  have hlen := congrArg String.length h
  rw [String.length_append] at hlen
  have hpos : 0 < errHead.length := by decide
  have h0 : ("" : String).length = 0 := rfl
  omega

/-- C6: when the chat API call raises, get_ai_assistance returns the
fixed error prefix followed by the exception text, which is non-empty
and contains the error description; the pipeline still reaches the final
notification and the process exits 0. -/
theorem c6_absorbed (k : String) (o : Oracle) (c st e : String) (fs0 : FS)
    (a s : String) (hk : k ≠ "") (hr : o.recOk = true)
    (hw : o.whisper = .ok c) (hc : pyStrip c ≠ "")
    (ho : o.ocrOfFile (o.scWrites.getD "") = .ok st)
    (hapi : o.api (buildPrompt st (pyStrip c)) = .error e) :
    get_ai_assistance o.api st (pyStrip c) = errHead ++ e
    ∧ get_ai_assistance o.api st (pyStrip c) ≠ ""
    ∧ containsStr (get_ai_assistance o.api st (pyStrip c)) e = true
    ∧ (runProgram (some k) o fs0 a s).exitCode = 0
    ∧ (runProgram (some k) o fs0 a s).notifs.getLast?
        = some (nAnswer (errHead ++ e)) := by
  have hans : get_ai_assistance o.api st (pyStrip c) = errHead ++ e := by
    simp [get_ai_assistance, hapi]
  refine ⟨hans, ?_, ?_, ?_, ?_⟩
  · rw [hans]; exact errHead_append_ne_empty e
  · rw [hans]
    apply strContains_shape _ errHead e ""
    simp [String.data_append]
  · rw [runProgram_started k o fs0 a s hk,
        runMain_success o fs0 a s c st hr hw hc ho]
  · rw [runProgram_started k o fs0 a s hk,
        runMain_success o fs0 a s c st hr hw hc ho]
    show some (nAnswer (get_ai_assistance o.api st (pyStrip c)))
        = some (nAnswer (errHead ++ e))
    rw [hans]

/-- Witness for C6 at a concrete oracle whose API call raises boom. -/
theorem c6_absorbed_wit :
    get_ai_assistance c6O.api "ctx" (pyStrip "q") = errHead ++ "boom"
    ∧ get_ai_assistance c6O.api "ctx" (pyStrip "q") ≠ ""
    ∧ containsStr (get_ai_assistance c6O.api "ctx" (pyStrip "q")) "boom" = true
    ∧ (runProgram (some "k") c6O [] "a.wav" "s.png").exitCode = 0
    ∧ (runProgram (some "k") c6O [] "a.wav" "s.png").notifs.getLast?
        = some (nAnswer (errHead ++ "boom")) :=
  c6_absorbed "k" c6O "q" "ctx" "boom" [] "a.wav" "s.png" (by decide) rfl rfl
    (by decide) rfl rfl

/-- C7 counterexample: for the non-empty, whitespace-only screen text
consisting of one tab character, the prompt does not contain the screen
text itself: the code substitutes the sentinel whenever the STRIPPED
screen text is empty, not only when the screen text equals the empty
string, and the tab character occurs nowhere in the prompt. -/
theorem c7_cex : tabS ≠ "" ∧ containsStr (buildPrompt tabS "q") tabS = false :=
  ⟨by decide, by decide⟩

/-- C7 amended: the sentinel is substituted exactly when the stripped
screen text is empty; when the stripped screen text is non-empty the
prompt contains the screen text verbatim, and the prompt always contains
the question. -/
theorem c7_amended (s q : String) :
    (pyStrip s = "" → containsStr (buildPrompt s q) sentinel = true)
    ∧ (pyStrip s ≠ "" → containsStr (buildPrompt s q) s = true)
    ∧ containsStr (buildPrompt s q) q = true := by
  refine ⟨?_, ?_, ?_⟩
  · intro h
    apply strContains_shape _ promptPre sentinel (promptMid ++ q ++ promptPost)
    simp [buildPrompt, h, String.data_append, List.append_assoc]
  · intro h
    apply strContains_shape _ promptPre s (promptMid ++ q ++ promptPost)
    simp [buildPrompt, h, String.data_append, List.append_assoc]
  · apply strContains_shape _
      (promptPre ++ (if pyStrip s = "" then sentinel else s) ++ promptMid) q
      promptPost
    simp [buildPrompt, String.data_append, List.append_assoc]

/-- Witness for C7 amended: the blank-screen prompt contains the
sentinel, and the scenario-A prompt contains the OCR text and the
question verbatim. -/
theorem c7_amended_wit :
    containsStr (buildPrompt "" "q1") sentinel = true
    ∧ containsStr
        (buildPrompt "NullPointerException at line 42" "what does this error mean")
        "NullPointerException at line 42" = true
    ∧ containsStr
        (buildPrompt "NullPointerException at line 42" "what does this error mean")
        "what does this error mean" = true :=
  ⟨(c7_amended "" "q1").1 (by decide),
   (c7_amended "NullPointerException at line 42" "what does this error mean").2.1
     (by decide),
   (c7_amended "NullPointerException at line 42" "what does this error mean").2.2⟩

/-- C1 counterexample: in a fully successful run the screenshot
temporary file is still present at process exit, so not every temporary
file created during the run is deleted; capture_screen_and_ocr opened
the tempfile with delete False and never removes it. -/
theorem c1_cex :
    (runProgram (some "k") c1O [] "a.wav" "s.png").captureCalled = true
    ∧ (runProgram (some "k") c1O [] "a.wav" "s.png").exitCode = 0
    ∧ FS.read (runProgram (some "k") c1O [] "a.wav" "s.png").fs "s.png"
        = some "IMG" :=
  ⟨by decide, by decide, by decide⟩

/-- C1 amended: on every exit path the audio temporary file and the
transcription companion file are absent at process exit, but the
screenshot image file is never deleted: every run that reaches the
screen-capture stage leaves it on disk at exit. -/
theorem c1_amended (env : Option String) (o : Oracle) (fs0 : FS) (a s : String)
    (ha : FS.read fs0 a = none) (ht : FS.read fs0 (a ++ ".txt") = none)
    (has : a ≠ s) (hts : a ++ ".txt" ≠ s) :
    FS.read (runProgram env o fs0 a s).fs a = none
    ∧ FS.read (runProgram env o fs0 a s).fs (a ++ ".txt") = none
    ∧ ((runProgram env o fs0 a s).captureCalled = true →
        (FS.read (runProgram env o fs0 a s).fs s).isSome = true) := by
  have hta : a ++ ".txt" ≠ a := Ne.symm (String.ne_append_txt a)
  have hsa : s ≠ a := fun hh => has hh.symm
  cases hk : startupKey env with
  | none => simp [runProgram, hk, ha, ht]
  | some k =>
    simp only [runProgram, hk]
    cases hr : o.recOk with
    | false =>
      rw [runMain_recFail o fs0 a s hr]
      refine ⟨FS.read_remove_self _ _, ?_, by simp⟩
      rw [FS.read_remove_ne _ _ _ hta, FS.read_write_ne _ _ _ _ hta]
      exact ht
    | true =>
      cases hw : o.whisper with
      | error u =>
        rw [runMain_whisperFail o fs0 a s u hr hw]
        refine ⟨FS.read_remove_self _ _, ?_, by simp⟩
        rw [FS.read_remove_ne _ _ _ hta, FS.read_write_ne _ _ _ _ hta,
            FS.read_write_ne _ _ _ _ hta]
        exact ht
      | ok c =>
        by_cases hc : pyStrip c = ""
        · rw [runMain_noSpeech o fs0 a s c hr hw hc]
          refine ⟨FS.read_remove_self _ _, ?_, by simp⟩
          rw [FS.read_remove_ne _ _ _ hta]
          simp [fsT, FS.read_remove_self]
        · cases ho : o.ocrOfFile (o.scWrites.getD "") with
          | error u =>
            rw [runMain_ocrFail o fs0 a s c u hr hw hc ho]
            refine ⟨FS.read_remove_self _ _, ?_, ?_⟩
            · rw [FS.read_remove_ne _ _ _ hta, scEffect_read_ne _ _ _ _ hts]
              simp [fsT, FS.read_remove_self]
            · intro _
              rw [FS.read_remove_ne _ _ _ hsa, scEffect_read]
              rfl
          | ok st =>
            rw [runMain_success o fs0 a s c st hr hw hc ho]
            refine ⟨FS.read_remove_self _ _, ?_, ?_⟩
            · rw [FS.read_remove_ne _ _ _ hta, scEffect_read_ne _ _ _ _ hts]
              simp [fsT, FS.read_remove_self]
            · intro _
              rw [FS.read_remove_ne _ _ _ hsa, scEffect_read]
              rfl

/-- Witness for C1 amended at a fully successful concrete run. -/
theorem c1_amended_wit :
    FS.read (runProgram (some "k") c1O [] "a.wav" "s.png").fs "a.wav" = none
    ∧ FS.read (runProgram (some "k") c1O [] "a.wav" "s.png").fs ("a.wav" ++ ".txt")
        = none
    ∧ ((runProgram (some "k") c1O [] "a.wav" "s.png").captureCalled = true →
        (FS.read (runProgram (some "k") c1O [] "a.wav" "s.png").fs "s.png").isSome
          = true) :=
  c1_amended (some "k") c1O [] "a.wav" "s.png" rfl rfl (by decide) (by decide)

/-- C2 counterexample: when the whisper executable fails, the run exits
1 and the only notifications emitted are the two progress messages that
preceded the failure, so this fatal error is never made user-visible
through the notification channel. -/
theorem c2_cex :
    (runProgram (some "k") c2O [] "a.wav" "s.png").exitCode = 1
    ∧ (runProgram (some "k") c2O [] "a.wav" "s.png").notifs = [nListen, nThink] :=
  ⟨by decide, by decide⟩

/-- C2 amended: fatal stage failures (device, transcription, capture or
OCR) abort the run with exit status 1 while emitting only the pre-stage
progress notifications; no error notification is produced for them.  The
configuration error and the final answer are the notified outcomes. -/
theorem c2_amended (k : String) (o : Oracle) (fs0 : FS) (a s : String)
    (hk : k ≠ "") (hexit : (runProgram (some k) o fs0 a s).exitCode = 1) :
    (runProgram (some k) o fs0 a s).notifs.all isProgressNotif = true := by
  rw [runProgram_started k o fs0 a s hk] at hexit ⊢
  cases hr : o.recOk with
  | false => rw [runMain_recFail o fs0 a s hr]; rfl
  | true =>
    cases hw : o.whisper with
    | error u => rw [runMain_whisperFail o fs0 a s u hr hw]; rfl
    | ok c =>
      by_cases hc : pyStrip c = ""
      · rw [runMain_noSpeech o fs0 a s c hr hw hc] at hexit
        simp at hexit
      · cases ho : o.ocrOfFile (o.scWrites.getD "") with
        | error u => rw [runMain_ocrFail o fs0 a s c u hr hw hc ho]; rfl
        | ok st =>
          rw [runMain_success o fs0 a s c st hr hw hc ho] at hexit
          simp at hexit

/-- Witness for C2 amended: the whisper-failure run emits only progress
notifications. -/
theorem c2_amended_wit :
    (runProgram (some "k") c2O [] "a.wav" "s.png").notifs.all isProgressNotif
      = true :=
  c2_amended "k" c2O [] "a.wav" "s.png" (by decide) (by decide)

/-- C3 counterexample: the code never inspects the exit status of the
screencapture process, so in a run where screencapture exits 7 but the
image file is still readable the pipeline continues, the AI query is
attempted and the process exits 0 with no abort of any kind. -/
theorem c3_cex :
    (runProgram (some "k") c3O [] "a.wav" "s.png").queryCalled = true
    ∧ (runProgram (some "k") c3O [] "a.wav" "s.png").exitCode = 0 :=
  ⟨by decide, by decide⟩

/-- C3 amended: the run outcome is entirely independent of the
screencapture exit status; a screenshot failure only surfaces when the
screenshot file cannot be opened and OCRed, in which case the uncaught
exception aborts the run before the AI query, the audio temporary file
is still deleted and the process exits 1 (with no CaptureError and no
error notification). -/
theorem c3_amended :
    (∀ (o : Oracle) (n : Nat) (env : Option String) (fs0 : FS) (a s : String),
        runProgram env { o with scExit := n } fs0 a s = runProgram env o fs0 a s)
    ∧ (∀ (k : String) (o : Oracle) (c : String) (u : Unit) (fs0 : FS)
        (a s : String), k ≠ "" → o.recOk = true → o.whisper = .ok c →
        pyStrip c ≠ "" → o.ocrOfFile (o.scWrites.getD "") = .error u →
        (runProgram (some k) o fs0 a s).queryCalled = false
        ∧ (runProgram (some k) o fs0 a s).exitCode = 1
        ∧ FS.read (runProgram (some k) o fs0 a s).fs a = none) := by
  constructor
  · intro o n env fs0 a s
    cases o
    rfl
  · intro k o c u fs0 a s hk hr hw hc ho
    rw [runProgram_started k o fs0 a s hk, runMain_ocrFail o fs0 a s c u hr hw hc ho]
    exact ⟨rfl, rfl, FS.read_remove_self _ _⟩

/-- Witness for C3 amended: changing the screencapture exit status to 99
leaves the run unchanged, and an unreadable screenshot aborts the run
with the audio file deleted. -/
theorem c3_amended_wit :
    runProgram (some "k") { c3WitO with scExit := 99 } [] "a.wav" "s.png"
      = runProgram (some "k") c3WitO [] "a.wav" "s.png"
    ∧ ((runProgram (some "k") c3WitO [] "a.wav" "s.png").queryCalled = false
      ∧ (runProgram (some "k") c3WitO [] "a.wav" "s.png").exitCode = 1
      ∧ FS.read (runProgram (some "k") c3WitO [] "a.wav" "s.png").fs "a.wav"
          = none) :=
  ⟨c3_amended.1 c3WitO 99 (some "k") [] "a.wav" "s.png",
   c3_amended.2 "k" c3WitO "hi" () [] "a.wav" "s.png" (by decide) rfl rfl
     (by decide) rfl⟩

/-- C4 counterexample: when the OCR call raises, the exception
propagates out of capture_screen_and_ocr and aborts the run with exit
status 1 before any AI query, instead of an empty string being returned
and the pipeline continuing. -/
theorem c4_cex :
    (runProgram (some "k") c4O [] "a.wav" "s.png").exitCode = 1
    ∧ (runProgram (some "k") c4O [] "a.wav" "s.png").queryCalled = false :=
  ⟨by decide, by decide⟩

/-- C4 amended: when OCR succeeds with no text, capture_screen_and_ocr
returns the empty string and the pipeline continues to the AI query and
exits 0; but when the OCR call raises, the exception propagates and the
run aborts with exit status 1 before the AI query. -/
theorem c4_amended (k : String) (o : Oracle) (c : String) (fs0 : FS)
    (a s : String) (hk : k ≠ "") (hr : o.recOk = true)
    (hw : o.whisper = .ok c) (hc : pyStrip c ≠ "") :
    (o.ocrOfFile (o.scWrites.getD "") = .ok "" →
      capture_screen_and_ocr o.scWrites o.ocrOfFile (fsT fs0 a c) s
        = .ok ("", scEffect o.scWrites (fsT fs0 a c) s)
      ∧ (runProgram (some k) o fs0 a s).queryCalled = true
      ∧ (runProgram (some k) o fs0 a s).exitCode = 0)
    ∧ (∀ u, o.ocrOfFile (o.scWrites.getD "") = .error u →
      (runProgram (some k) o fs0 a s).queryCalled = false
      ∧ (runProgram (some k) o fs0 a s).exitCode = 1) := by
  constructor
  · intro ho
    refine ⟨?_, ?_, ?_⟩
    · rw [capture_eq, ho]
    · rw [runProgram_started k o fs0 a s hk,
          runMain_success o fs0 a s c "" hr hw hc ho]
    · rw [runProgram_started k o fs0 a s hk,
          runMain_success o fs0 a s c "" hr hw hc ho]
  · intro u ho
    rw [runProgram_started k o fs0 a s hk,
        runMain_ocrFail o fs0 a s c u hr hw hc ho]
    exact ⟨rfl, rfl⟩

/-- Witness for C4 amended: a no-text OCR run continues to the query and
exits 0, and an OCR-exception run aborts with exit 1. -/
theorem c4_amended_wit :
    (capture_screen_and_ocr c4WitO.scWrites c4WitO.ocrOfFile
        (fsT [] "a.wav" "hi") "s.png"
        = .ok ("", scEffect c4WitO.scWrites (fsT [] "a.wav" "hi") "s.png")
      ∧ (runProgram (some "k") c4WitO [] "a.wav" "s.png").queryCalled = true
      ∧ (runProgram (some "k") c4WitO [] "a.wav" "s.png").exitCode = 0)
    ∧ ((runProgram (some "k") c4O [] "a.wav" "s.png").queryCalled = false
      ∧ (runProgram (some "k") c4O [] "a.wav" "s.png").exitCode = 1) :=
  ⟨(c4_amended "k" c4WitO "hi" [] "a.wav" "s.png" (by decide) rfl rfl
      (by decide)).1 rfl,
   (c4_amended "k" c4O "hi" [] "a.wav" "s.png" (by decide) rfl rfl
      (by decide)).2 () rfl⟩

/-- C10: every notification body passed to the native osascript call on
any run is free of double-quote characters, and on the successful path
the final notification is the answer notification, whose body is exactly
the returned answer text with double quotes replaced by single quotes. -/
theorem c10_sanitized :
    (∀ (env : Option String) (o : Oracle) (fs0 : FS) (a s : String)
        (n : Notification), n ∈ (runProgram env o fs0 a s).notifs →
        n.body.data.contains dq = false)
    ∧ (∀ (k : String) (o : Oracle) (c st : String) (fs0 : FS) (a s : String),
        k ≠ "" → o.recOk = true → o.whisper = .ok c → pyStrip c ≠ "" →
        o.ocrOfFile (o.scWrites.getD "") = .ok st →
        (runProgram (some k) o fs0 a s).notifs.getLast?
          = some (show_notification ("Here" ++ sqS ++ "s your answer!")
              (sanitize (get_ai_assistance o.api st (pyStrip c))))) := by
  constructor
  · intro env o fs0 a s n hn
    cases hk : startupKey env with
    | none =>
      rw [runProgram, hk] at hn
      simp at hn
      rw [hn]
      decide
    | some k =>
      rw [runProgram, hk] at hn
      cases hr : o.recOk with
      | false =>
        rw [runMain_recFail o fs0 a s hr] at hn
        simp at hn
        rw [hn]; decide
      | true =>
        cases hw : o.whisper with
        | error u =>
          rw [runMain_whisperFail o fs0 a s u hr hw] at hn
          simp at hn
          rcases hn with hn | hn <;> (rw [hn]; decide)
        | ok c =>
          by_cases hc : pyStrip c = ""
          · rw [runMain_noSpeech o fs0 a s c hr hw hc] at hn
            simp at hn
            rcases hn with hn | hn | hn <;> (rw [hn]; decide)
          · cases ho : o.ocrOfFile (o.scWrites.getD "") with
            | error u =>
              rw [runMain_ocrFail o fs0 a s c u hr hw hc ho] at hn
              simp at hn
              rcases hn with hn | hn <;> (rw [hn]; decide)
            | ok st =>
              rw [runMain_success o fs0 a s c st hr hw hc ho] at hn
              simp at hn
              rcases hn with hn | hn | hn | hn <;> rw [hn]
              · decide
              · decide
              · decide
              · exact sanitize_no_quote (get_ai_assistance o.api st (pyStrip c))
  · intro k o c st fs0 a s hk hr hw hc ho
    rw [runProgram_started k o fs0 a s hk,
        runMain_success o fs0 a s c st hr hw hc ho]
    rfl

/-- Witness for C10 on a fully successful concrete run: the configured
error notification body and the final answer notification. -/
theorem c10_sanitized_wit :
    nListen.body.data.contains dq = false
    ∧ (runProgram (some "k") c10O [] "a.wav" "s.png").notifs.getLast?
        = some (show_notification ("Here" ++ sqS ++ "s your answer!")
            (sanitize (get_ai_assistance c10O.api "screen words"
              (pyStrip "hello")))) :=
  ⟨c10_sanitized.1 (some "k") c10O [] "a.wav" "s.png" nListen (by decide),
   c10_sanitized.2 "k" c10O "hello" "screen words" [] "a.wav" "s.png"
     (by decide) rfl rfl (by decide) rfl⟩

end AIVision
